import Mathlib

/-!
Verification development for the pypicloud object-store storage backend
(`pypicloud/storage/object_store.py`) and the index-resolution / fallback
caching behaviour pinned down by the unit tests in `tests/test_simple.py`
and `tests/test_api.py`.

Conventions of the embedding:
* Python strings are Lean `String`s; byte strings are `List Nat` with each
  element < 256.
* The mutable metadata dict `package.data` is an association list; a mutating
  method such as `get_path` returns the updated package next to its result.
* `hashlib.md5` is embedded as a full implementation of the MD5 digest
  (RFC 1321) over byte lists, with `hexlify` producing the lowercase hex
  string, exactly as `calculate_path` uses them.
-/

namespace PypiCloud

/-! ### MD5 (RFC 1321), as used by `calculate_path` via `hashlib.md5` -/

/-- Truncate to a 32-bit word. -/
def w32 (n : Nat) : Nat := n % 4294967296

/-- 32-bit left rotation by `s` (for `0 < s < 32`). -/
def rotl32 (x s : Nat) : Nat := (x % 2 ^ (32 - s)) * 2 ^ s + x / 2 ^ (32 - s)

/-- 32-bit bitwise complement. -/
def bnot32 (x : Nat) : Nat := 4294967295 - x % 4294967296

def mdF (x y z : Nat) : Nat := (x &&& y) ||| (bnot32 x &&& z)

def mdG (x y z : Nat) : Nat := (x &&& z) ||| (y &&& bnot32 z)

def mdH (x y z : Nat) : Nat := x ^^^ y ^^^ z

def mdI (x y z : Nat) : Nat := y ^^^ (x ||| bnot32 z)

/-- The 64 MD5 additive constants, `floor(abs(sin(i+1)) * 2^32)`. -/
def md5K : List Nat :=
  [0xd76aa478, 0xe8c7b756, 0x242070db, 0xc1bdceee,
   0xf57c0faf, 0x4787c62a, 0xa8304613, 0xfd469501,
   0x698098d8, 0x8b44f7af, 0xffff5bb1, 0x895cd7be,
   0x6b901122, 0xfd987193, 0xa679438e, 0x49b40821,
   0xf61e2562, 0xc040b340, 0x265e5a51, 0xe9b6c7aa,
   0xd62f105d, 0x02441453, 0xd8a1e681, 0xe7d3fbc8,
   0x21e1cde6, 0xc33707d6, 0xf4d50d87, 0x455a14ed,
   0xa9e3e905, 0xfcefa3f8, 0x676f02d9, 0x8d2a4c8a,
   0xfffa3942, 0x8771f681, 0x6d9d6122, 0xfde5380c,
   0xa4beea44, 0x4bdecfa9, 0xf6bb4b60, 0xbebfbc70,
   0x289b7ec6, 0xeaa127fa, 0xd4ef3085, 0x04881d05,
   0xd9d4d039, 0xe6db99e5, 0x1fa27cf8, 0xc4ac5665,
   0xf4292244, 0x432aff97, 0xab9423a7, 0xfc93a039,
   0x655b59c3, 0x8f0ccc92, 0xffeff47d, 0x85845dd1,
   0x6fa87e4f, 0xfe2ce6e0, 0xa3014314, 0x4e0811a1,
   0xf7537e82, 0xbd3af235, 0x2ad7d2bb, 0xeb86d391]

/-- The 64 MD5 per-round left-rotation amounts. -/
def md5S : List Nat :=
  [7, 12, 17, 22, 7, 12, 17, 22, 7, 12, 17, 22, 7, 12, 17, 22,
   5, 9, 14, 20, 5, 9, 14, 20, 5, 9, 14, 20, 5, 9, 14, 20,
   4, 11, 16, 23, 4, 11, 16, 23, 4, 11, 16, 23, 4, 11, 16, 23,
   6, 10, 15, 21, 6, 10, 15, 21, 6, 10, 15, 21, 6, 10, 15, 21]

/-- Little-endian 32-bit word `j` of a 64-byte block. -/
def md5Words (block : List Nat) (j : Nat) : Nat :=
  block.getD (4 * j) 0 + 256 * block.getD (4 * j + 1) 0 +
    65536 * block.getD (4 * j + 2) 0 + 16777216 * block.getD (4 * j + 3) 0

/-- One of the 64 MD5 rounds. -/
def md5Round (M : Nat → Nat) (st : Nat × Nat × Nat × Nat) (i : Nat) :
    Nat × Nat × Nat × Nat :=
  let (a, b, c, d) := st
  let f := if i < 16 then mdF b c d
           else if i < 32 then mdG b c d
           else if i < 48 then mdH b c d
           else mdI b c d
  let g := if i < 16 then i
           else if i < 32 then (5 * i + 1) % 16
           else if i < 48 then (3 * i + 5) % 16
           else (7 * i) % 16
  let t := w32 (a + f + md5K.getD i 0 + M g)
  (d, w32 (b + rotl32 t (md5S.getD i 0)), b, c)

/-- Process one 64-byte block. -/
def md5Block (st : Nat × Nat × Nat × Nat) (block : List Nat) :
    Nat × Nat × Nat × Nat :=
  let r := (List.range 64).foldl (md5Round (md5Words block)) st
  (w32 (st.1 + r.1), w32 (st.2.1 + r.2.1),
   w32 (st.2.2.1 + r.2.2.1), w32 (st.2.2.2 + r.2.2.2))

/-- Process a padded message block by block. The first argument is fuel
making the 64-byte chopping structurally recursive (the callers pass the
message length, which bounds the number of blocks). -/
def md5Blocks : Nat → Nat × Nat × Nat × Nat → List Nat → Nat × Nat × Nat × Nat
  | 0, st, _ => st
  | _ + 1, st, [] => st
  | fuel + 1, st, l => md5Blocks fuel (md5Block st (l.take 64)) (l.drop 64)

/-- MD5 padding: `0x80`, zeros to 56 mod 64, then the bit length as 8
little-endian bytes. -/
def md5Pad (msg : List Nat) : List Nat :=
  let len := msg.length
  let z := (120 - (len + 1) % 64) % 64
  msg ++ [128] ++ List.replicate z 0 ++
    (List.range 8).map (fun i => 8 * len / 256 ^ i % 256)

/-- The 16-byte MD5 digest of a byte list. -/
def md5Bytes (msg : List Nat) : List Nat :=
  let r := md5Blocks (md5Pad msg).length (0x67452301, 0xefcdab89, 0x98badcfe, 0x10325476) (md5Pad msg)
  ((List.range 4).map (fun i => r.1 / 256 ^ i % 256)) ++
    ((List.range 4).map (fun i => r.2.1 / 256 ^ i % 256)) ++
    ((List.range 4).map (fun i => r.2.2.1 / 256 ^ i % 256)) ++
    ((List.range 4).map (fun i => r.2.2.2 / 256 ^ i % 256))

/-- Lowercase hex digit. -/
def hexDigitChar (n : Nat) : Char :=
  if n < 10 then Char.ofNat (48 + n) else Char.ofNat (87 + n)

/-- `binascii.hexlify` over a byte list, as a string. -/
def hexlify (bytes : List Nat) : String :=
  String.mk ((bytes.map (fun b => [hexDigitChar (b / 16), hexDigitChar (b % 16)])).flatten)

/-- UTF-8 encoding of one character (`str.encode` on one code point). -/
def utf8Char (c : Char) : List Nat :=
  let n := c.toNat
  if n < 128 then [n]
  else if n < 2048 then [192 + n / 64, 128 + n % 64]
  else if n < 65536 then [224 + n / 4096, 128 + n / 64 % 64, 128 + n % 64]
  else [240 + n / 262144, 128 + n / 4096 % 64, 128 + n / 64 % 64, 128 + n % 64]

/-- `str.encode("utf-8")` as a byte list. -/
def utf8Bytes (s : String) : List Nat := (s.data.map utf8Char).flatten

/-- First 4 hex digits of the MD5 digest of a string,
`hexlify(md5(filename.encode("utf-8")).digest())[:4]` in the source. -/
def md5Hex4 (s : String) : String := String.mk ((hexlify (md5Bytes (utf8Bytes s))).data.take 4)

/-! ### Data model -/

/-- A package record (`pypicloud.models.Package`): identity plus the mutable
metadata dict `data`, modelled as an association list. `origin` is the
provenance string, `"upload"` or `"cache"` in the source. -/
structure Package where
  name : String
  version : String
  filename : String
  origin : String
  summary : Option String
  requiresPython : Option String
  data : List (String × String)
deriving DecidableEq, Repr

/-- Configuration state of `ObjectStoreStorage` after `__init__`.
Field names follow the source (`bucket_prefix` ↦ `bucketPfx`,
`upload_prefix` ↦ `uploadPfx`, etc.); `uploadPfx` is `none` when the Python
attribute is `None`. -/
structure ObjectStoreStorage where
  expireAfter : Nat
  bucketPfx : String
  uploadPfx : Option String
  prependHash : Bool
  redirectUrls : Bool
  publicUrl : Bool
deriving DecidableEq, Repr

/-- Python truthiness of `self.upload_prefix` (an optional string):
`None` and the empty string are falsy. -/
def optTruthy : Option String → Bool
  | none => false
  | some s => !s.isEmpty

/-- Embedding of `ObjectStoreStorage.__init__` restricted to the fields the
key/URL logic reads. The one computation in the constructor is the
normalization `self.upload_prefix = upload_prefix if upload_prefix != bucket_prefix else None`. -/
def initStorage (expireAfter : Nat) (bucketPfx uploadPfxArg : String)
    (prependHash redirectUrls publicUrl : Bool) : ObjectStoreStorage :=
  { expireAfter := expireAfter
    bucketPfx := bucketPfx
    uploadPfx := if uploadPfxArg ≠ bucketPfx then some uploadPfxArg else none
    prependHash := prependHash
    redirectUrls := redirectUrls
    publicUrl := publicUrl }

/-- The deployment settings read by `configure`; `none` means the key is
absent and the coded default applies. Booleans stand for the result of
pyramid `asbool`, the expiry for the result of `int()`. -/
structure Settings where
  expireAfter : Option Nat
  storagePfx : Option String
  storageUploadPfx : Option String
  prependHash : Option Bool
  redirectUrls : Option Bool
  publicUrl : Option Bool
deriving DecidableEq, Repr

/-- Embedding of `ObjectStoreStorage.configure` composed with the
constructor: defaults are `expire_after = 60*60*24`, `prefix = ""`,
`upload_prefix = ""`, `prepend_hash = True`, `redirect_urls = True`,
`public_url = False`. -/
def configure (st : Settings) : ObjectStoreStorage :=
  initStorage (st.expireAfter.getD (60 * 60 * 24)) (st.storagePfx.getD "")
    (st.storageUploadPfx.getD "") (st.prependHash.getD true)
    (st.redirectUrls.getD true) (st.publicUrl.getD false)

/-! ### Key resolution (`calculate_path` / `get_path`) -/

/-- Embedding of `calculate_path`: `name + "/" + filename`, with
`hexlify(md5(filename.encode("utf-8")).digest())[:4] + "/"` prepended when
`prepend_hash` is set. -/
def calculate_path (s : ObjectStoreStorage) (p : Package) : String :=
  let path := p.name ++ "/" ++ p.filename
  if s.prependHash then md5Hex4 p.filename ++ "/" ++ path else path

/-- The storage-area choice made inside `get_path`:
`self.upload_prefix if self.upload_prefix and package.origin == "upload" else self.bucket_prefix`. -/
def areaPfx (s : ObjectStoreStorage) (origin : String) : String :=
  if optTruthy s.uploadPfx ∧ origin = "upload" then s.uploadPfx.getD "" else s.bucketPfx

/-- Embedding of `get_path`. The source memoizes through the mutable dict
`package.data["path"]`; here the updated package is returned next to the
key. -/
def get_path (s : ObjectStoreStorage) (p : Package) : String × Package :=
  match p.data.lookup "path" with
  | some v => (v, p)
  | none =>
      let filename := calculate_path s p
      let key := areaPfx s p.origin ++ filename
      (key, { p with data := ("path", key) :: p.data })

/-! ### URL resolution (`get_url` and the base class) -/

/-- Modelled from the spec: the base-class URL (`IStorage.get_url`,
`storage/base.py` is absent from the sources) — the stable proxy-relative
URL `api/package/<name>/<filename>` through which bytes are later streamed
or redirected by the download endpoint. -/
def baseGetUrl (p : Package) : String :=
  "api/package/" ++ p.name ++ "/" ++ p.filename

/-- Embedding of `ObjectStoreStorage.get_url`; `signer` stands for the
subclass hook `_generate_url` (the external signed-URL generator). -/
def get_url (s : ObjectStoreStorage) (signer : Package → String) (p : Package) : String :=
  if s.redirectUrls then baseGetUrl p else signer p

/-! ### Proxied streaming (`ObjectStoreStorage.open`) -/

/-- A urlopen handle: its one observable effect here is the outcome of
`handle.read()`. -/
structure Handle where
  readRes : Except String (List Nat)
deriving Repr

/-- Python `try: ... finally: ...` over an explicit resource state: the body
returns its outcome (normal or exception) together with the state, and the
finally-block transformer runs on the state on both paths. -/
def tryFinally (body : σ → Except ε α × σ) (fin : σ → σ) (st : σ) :
    Except ε α × σ :=
  let r := body st
  (r.1, fin r.2)

/-- Embedding of `ObjectStoreStorage.open` (`open` is a Lean keyword, hence
the name). `signer` is `_generate_url`, `urlopenF` the external `urlopen`
collaborator, `consumer` the `with`-block body that receives the
`BytesIO(handle.read())` bytes, and the `Nat` state counts currently open
handles: `urlopen` success acquires one, `handle.close()` in the
`finally` releases it. -/
def openStream (signer : Package → String)
    (urlopenF : String → Except String Handle)
    (consumer : List Nat → Except String α) (p : Package) (openHandles : Nat) :
    Except String α × Nat :=
  let url := signer p
  match urlopenF url with
  | .error e => (.error e, openHandles)
  | .ok h =>
      tryFinally
        (fun m =>
          (match h.readRes with
           | .error e => (.error e : Except String α)
           | .ok bs => consumer bs, m))
        (fun m => m - 1) (openHandles + 1)

/-! ### Index resolution (the listing state machine) -/

/-- The deployment fallback mode. -/
inductive Fallback
  | none
  | redirect
  | cache
deriving DecidableEq, Repr

/-- Terminal outcome of a listing request, §4.5 of the spec:
401 / 404 / 302-to-upstream / serve local only / serve local merged with
upstream entries / serve the upstream (fallback) listing alone. -/
inductive ListingAction
  | askAuth
  | notFound
  | redirectUpstream
  | serveLocal
  | serveMerged
  | serveFallbackListing
deriving DecidableEq, Repr

/-- Modelled from the spec: the §4.5 listing state machine
(`package_versions` in `pypicloud/views/simple.py`, which is absent from the
sources). Every branch outcome is pinned by the unit-test matrix in
`tests/test_simple.py` (`TestNoFallback`, `TestRedirect`,
`TestRedirectAlwaysShow`, `TestCache`, `TestCacheAlwaysShow`, 52 cases),
which this definition reproduces exactly; where the tests and the spec's
table disagree the tests are followed. -/
def package_versions (fb : Fallback) (alwaysShow hasLocal authed canRead canCache : Bool) :
    ListingAction :=
  if hasLocal then
    if canRead then
      match fb with
      | .none => .serveLocal
      | .redirect => if alwaysShow then .serveMerged else .serveLocal
      | .cache =>
          if alwaysShow then
            if canCache || authed then .serveMerged else .askAuth
          else .serveLocal
    else
      if !authed then .askAuth
      else
        match fb with
        | .none => .notFound
        | .redirect => .redirectUpstream
        | .cache => if alwaysShow then .redirectUpstream else .notFound
  else
    match fb with
    | .none => if !authed && !canRead then .askAuth else .notFound
    | .redirect => .redirectUpstream
    | .cache =>
        if canCache then .serveFallbackListing
        else if !authed then .askAuth
        else if alwaysShow then .redirectUpstream else .notFound

/-! ### Download endpoint and cache orchestration -/

/-- An upstream release as reported by the locator collaborator. -/
structure Release where
  url : String
  name : String
  version : String
  summary : Option String
  requiresPython : Option String
deriving DecidableEq, Repr

/-- `posixpath.basename`: the part of a path after the last slash. -/
def basename (s : String) : String :=
  String.mk ((s.data.reverse.takeWhile (fun c => c ≠ '/')).reverse)

/-- Outcome of the download endpoint: 404, 403, a body response carrying
the `Cache-Control: public, max-age=<n>` header (cache-fill path), the
storage redirect response `db.download_response`, or a proxied stream body
with the same header. -/
inductive DownloadResult
  | notFound
  | forbidden
  | response (body : List Nat) (maxAge : Nat)
  | dbResponse
  | streamResponse (body : List Nat) (maxAge : Nat)
deriving DecidableEq, Repr

/-- The local package record created by the cache-fill path
(`fetch_dist` persisting the fetched release with origin `cache`). -/
def mkCachedPackage (d : Release) (filename : String) : Package :=
  { name := d.name
    version := d.version
    filename := filename
    origin := "cache"
    summary := d.summary
    requiresPython := d.requiresPython
    data := [] }

/-- Modelled from the spec: the download endpoint
(`download_package` in `pypicloud/views/api.py` together with `fetch_dist`,
both absent from the sources), pinned by the tests in `tests/test_api.py`.
A local hit is served from storage (streamed, 1 storage read) or answered
with `db.download_response` (a redirect); a miss falls back per policy: 404
unless the fallback mode is `cache`, 403 without the cache-update
permission, 404 when upstream reports no release with the filename, and otherwise the bytes
are fetched once from upstream, exactly one new record with origin `cache`
is appended to the local store, and the fetched bytes are returned directly
with max-age `packageMaxAge` and no storage read. Returns
(result, updated store, number of storage reads performed). -/
def download_package (fb : Fallback) (canUpdateCache : Bool)
    (packageMaxAge : Nat) (streamFiles : Bool)
    (storageBytes : Package → List Nat) (releases : List Release)
    (fetchBytes : String → List Nat) (db : List Package) (filename : String) :
    DownloadResult × List Package × Nat :=
  match db.find? (fun p => p.filename == filename) with
  | some pkg =>
      if streamFiles then (.streamResponse (storageBytes pkg) packageMaxAge, db, 1)
      else (.dbResponse, db, 0)
  | none =>
      if fb ≠ .cache then (.notFound, db, 0)
      else if !canUpdateCache then (.forbidden, db, 0)
      else
        match releases.find? (fun d => basename d.url == filename) with
        | none => (.notFound, db, 0)
        | some d =>
            (.response (fetchBytes d.url) packageMaxAge,
             db ++ [mkCachedPackage d filename], 0)

/-! ### The key format as the spec words it (for claim C2) -/

/-- The spec's key format, transcribed from its words: every bracketed part
that is present is followed by a `/` separator —
`[<upload-or-bucket-prefix>/][<4-hex-prefix>/]<project>/<filename>`. -/
def specKeyFormat (s : ObjectStoreStorage) (p : Package) : String :=
  (if areaPfx s p.origin = "" then "" else areaPfx s p.origin ++ "/") ++
    (if s.prependHash then md5Hex4 p.filename ++ "/" else "") ++
    p.name ++ "/" ++ p.filename

/-! ### Concrete fixtures used by counterexamples and witnesses -/

/-- A package fresh from upload, metadata bag empty. -/
def p0 : Package :=
  { name := "foo"
    version := "1.2"
    filename := "foo-1.2.tar.gz"
    origin := "upload"
    summary := none
    requiresPython := none
    data := [] }

/-- A storage configured with a non-slash-terminated general bucket area and
hash-prefixing off. -/
def s2c : ObjectStoreStorage :=
  { expireAfter := 86400
    bucketPfx := "pre"
    uploadPfx := none
    prependHash := false
    redirectUrls := true
    publicUrl := false }

/-- A storage with a distinct upload area and hash-prefixing on. -/
def s2w : ObjectStoreStorage :=
  { expireAfter := 86400
    bucketPfx := ""
    uploadPfx := some "up/"
    prependHash := true
    redirectUrls := true
    publicUrl := false }

/-- A storage with redirect mode on and no area prefixes. -/
def s5r : ObjectStoreStorage :=
  { expireAfter := 86400
    bucketPfx := ""
    uploadPfx := none
    prependHash := true
    redirectUrls := true
    publicUrl := false }

/-- A signed-URL generator collaborator returning a fixed signed URL. -/
def sign5 : Package → String := fun _ => "https://signed.example/obj"

/-- Settings with every key absent, so `configure` applies all defaults. -/
def st5 : Settings :=
  { expireAfter := none
    storagePfx := none
    storageUploadPfx := none
    prependHash := none
    redirectUrls := none
    publicUrl := none }

/-- A storage with hashing off, used for the key-purity counterexample. -/
def s7 : ObjectStoreStorage :=
  { expireAfter := 86400
    bucketPfx := ""
    uploadPfx := none
    prependHash := false
    redirectUrls := true
    publicUrl := false }

/-- Prject `a`, one artifact. -/
def p7a : Package :=
  { name := "a"
    version := "1.0"
    filename := "f-1.0.tar.gz"
    origin := "upload"
    summary := none
    requiresPython := none
    data := [] }

/-- Same filename and origin as `p7a`, different project name. -/
def p7b : Package :=
  { name := "b"
    version := "1.0"
    filename := "f-1.0.tar.gz"
    origin := "upload"
    summary := none
    requiresPython := none
    data := [] }

/-- Same name, filename and origin as `p7a`, all other mutable state
different (version, summary, an unrelated metadata entry). -/
def p7c : Package :=
  { name := "a"
    version := "2.0"
    filename := "f-1.0.tar.gz"
    origin := "upload"
    summary := some "other summary"
    requiresPython := some ">=3.7"
    data := [("other", "x")] }

/-- An upstream release whose URL basename is `package.tar.gz`. -/
def rel3 : Release :=
  { url := "https://pypi.org/simple/package.tar.gz"
    name := "package"
    version := "1.0"
    summary := none
    requiresPython := none }

/-- A urlopen collaborator that always yields a handle reading `[1, 2]`. -/
def uo9 : String → Except String Handle := fun _ => .ok { readRes := .ok [1, 2] }

/-- A consuming with-block body returning the byte count. -/
def cons9 : List Nat → Except String Nat := fun bs => .ok bs.length

/-! ### Shared lemmas about `get_path` -/

/-- String append is associative. -/
theorem strAppendAssoc (a b c : String) : a ++ b ++ c = a ++ (b ++ c) := by
  cases a with | mk xs =>
  cases b with | mk ys =>
  cases c with | mk zs =>
  show String.mk (xs ++ ys ++ zs) = String.mk (xs ++ (ys ++ zs))
  rw [List.append_assoc]

/-- A memoized key is returned as-is, package untouched. -/
theorem get_path_hit (s : ObjectStoreStorage) (p : Package) (v : String)
    (h : p.data.lookup "path" = some v) : get_path s p = (v, p) := by
  simp [get_path, h]

/-- On a fresh package the key is the area choice followed by
`calculate_path`, and it is recorded at the head of the metadata bag. -/
theorem get_path_fresh (s : ObjectStoreStorage) (p : Package)
    (h : p.data.lookup "path" = none) :
    get_path s p =
      (areaPfx s p.origin ++ calculate_path s p,
       { p with data := ("path", areaPfx s p.origin ++ calculate_path s p) :: p.data }) := by
  simp [get_path, h]

/-- After any `get_path` call the metadata bag holds the returned key. -/
theorem get_path_memo_lookup (s : ObjectStoreStorage) (p : Package) :
    (get_path s p).2.data.lookup "path" = some (get_path s p).1 := by
  cases h : p.data.lookup "path" with
  | some v => simp [get_path, h]
  | none => simp [get_path, h, List.lookup]

/-! ### Claims -/

/-- C1 counterexample: with fallback mode `cache`, no local packages and an
authenticated caller holding read but not cache-update permission, turning
`alwaysShowUpstream` on makes the listing endpoint emit a redirect to
upstream, not the not-found the claim demands regardless of that setting
(`TestCacheAlwaysShow.test_no_package_read_user` in `tests/test_simple.py`). -/
theorem cache_listing_noperm_redirects_when_always_show :
    package_versions .cache true false true true false = .redirectUpstream ∧
    package_versions .cache true false true true false ≠ .notFound := by decide

/-- C1 (amended): with fallback mode `cache`, no local packages and an
authenticated caller lacking cache-update permission, the listing endpoint
emits not-found when `alwaysShowUpstream` is off and a redirect to upstream
when it is on — in either case independently of read permission, and never
the cache-fill (fallback) listing. -/
theorem cache_listing_noperm_outcome :
    ∀ canRead : Bool,
      package_versions .cache false false true canRead false = .notFound ∧
      package_versions .cache true false true canRead false = .redirectUpstream := by
  decide

/-- C2 counterexample: with a configured bucket area `pre` (and hashing
off), the resolved key concatenates the area verbatim with no `/`
separator, contradicting the bracketed format of the claim. -/
theorem storage_key_no_separator_counterexample :
    (get_path s2c p0).1 = "prefoo/foo-1.2.tar.gz" ∧
    specKeyFormat s2c p0 = "pre/foo/foo-1.2.tar.gz" ∧
    (get_path s2c p0).1 ≠ specKeyFormat s2c p0 := by decide

/-- C2 (amended): for a package with no memoized key the resolved storage
key is `<area><4-hex-prefix>/<project>/<filename>` when hashing is enabled
and `<area><project>/<filename>` otherwise, where the area is the upload
area for uploads when one is set (non-empty) and the bucket area otherwise,
concatenated verbatim — no `/` separator is added after the area — and the
4-hex prefix is the first 4 hex digits of the MD5 digest of the filename. -/
theorem storage_key_format (s : ObjectStoreStorage) (p : Package)
    (h : p.data.lookup "path" = none) :
    (get_path s p).1 =
      areaPfx s p.origin ++
        ((if s.prependHash then md5Hex4 p.filename ++ "/" else "") ++
          (p.name ++ "/" ++ p.filename)) := by
  rw [get_path_fresh s p h]
  simp only [calculate_path]
  cases hp : s.prependHash <;>
    simp [hp, strAppendAssoc]

set_option maxRecDepth 8000 in
/-- C2 witness: the format theorem instantiated at a fresh upload under a
distinct upload area with hashing on; the hex prefix of
`foo-1.2.tar.gz` evaluates to `da1f`. -/
theorem storage_key_format_witness :
    p0.data.lookup "path" = none ∧
    md5Hex4 p0.filename = "da1f" ∧
    (get_path s2w p0).1 =
      areaPfx s2w p0.origin ++
        ((if s2w.prependHash then md5Hex4 p0.filename ++ "/" else "") ++
          (p0.name ++ "/" ++ p0.filename)) :=
  ⟨rfl, by decide, storage_key_format s2w p0 rfl⟩

/-- C3: on a cache-mode download miss with cache-update permission and a
matching upstream release, the endpoint returns the fetched bytes directly
with max-age `maxAge`, performs no storage read, and appends exactly one
new local record, with origin `cache`. -/
theorem download_cache_miss_caches_and_returns
    (maxAge : Nat) (streamFiles : Bool) (storageBytes : Package → List Nat)
    (releases : List Release) (fetchBytes : String → List Nat)
    (db : List Package) (filename : String) (d : Release)
    (hmiss : db.find? (fun p => p.filename == filename) = none)
    (hrel : releases.find? (fun r => basename r.url == filename) = some d) :
    download_package .cache true maxAge streamFiles storageBytes releases
        fetchBytes db filename =
      (.response (fetchBytes d.url) maxAge, db ++ [mkCachedPackage d filename], 0) ∧
    (mkCachedPackage d filename).origin = "cache" ∧
    (db ++ [mkCachedPackage d filename]).length = db.length + 1 := by
  refine ⟨?_, rfl, by simp⟩
  simp [download_package, hmiss, hrel]

/-- C3 witness: an empty local store, one upstream release for
`package.tar.gz`, fetched bytes `fds` (as in
`test_download_fallback_cache`). -/
theorem download_cache_miss_caches_and_returns_witness :
    ([] : List Package).find? (fun p => p.filename == "package.tar.gz") = none ∧
    [rel3].find? (fun r => basename r.url == "package.tar.gz") = some rel3 ∧
    download_package .cache true 0 false (fun _ => []) [rel3]
        (fun _ => [102, 100, 115]) [] "package.tar.gz" =
      (.response [102, 100, 115] 0, [mkCachedPackage rel3 "package.tar.gz"], 0) :=
  ⟨rfl, by decide,
   (download_cache_miss_caches_and_returns 0 false (fun _ => []) [rel3]
     (fun _ => [102, 100, 115]) [] "package.tar.gz" rel3 rfl (by decide)).1⟩

/-- C4: on a cache-mode download miss without cache-update permission the
endpoint answers forbidden, the local store is unchanged and no storage
read happens. -/
theorem download_cache_miss_forbidden_without_perm
    (maxAge : Nat) (streamFiles : Bool) (storageBytes : Package → List Nat)
    (releases : List Release) (fetchBytes : String → List Nat)
    (db : List Package) (filename : String)
    (hmiss : db.find? (fun p => p.filename == filename) = none) :
    download_package .cache false maxAge streamFiles storageBytes releases
        fetchBytes db filename = (.forbidden, db, 0) := by
  simp [download_package, hmiss]

/-- C4 witness: the forbidden path at an empty local store
(as in `test_download_fallback_cache_no_perm`). -/
theorem download_cache_miss_forbidden_without_perm_witness :
    ([] : List Package).find? (fun p => p.filename == "package.tar.gz") = none ∧
    download_package .cache false 0 false (fun _ => []) [rel3]
        (fun _ => [102, 100, 115]) [] "package.tar.gz" = (.forbidden, [], 0) :=
  ⟨rfl,
   download_cache_miss_forbidden_without_perm 0 false (fun _ => []) [rel3]
     (fun _ => [102, 100, 115]) [] "package.tar.gz" rfl⟩

/-- C5 counterexample: with `redirect_urls` enabled, `get_url` returns the
base-class proxy-relative URL, not the signed-URL generator result the
claim requires in redirect mode. -/
theorem get_url_redirect_counterexample :
    s5r.redirectUrls = true ∧
    get_url s5r sign5 p0 = "api/package/foo/foo-1.2.tar.gz" ∧
    get_url s5r sign5 p0 ≠ sign5 p0 := by decide

/-- C5 (amended): `get_url` returns the stable proxy-relative URL when
`redirect_urls` is enabled and the external signed-URL generator result
when it is disabled; the signed-URL expiry defaults to
`60 * 60 * 24 = 86400` seconds in `configure`. -/
theorem get_url_branches (s : ObjectStoreStorage) (signer : Package → String)
    (p : Package) :
    (s.redirectUrls = true → get_url s signer p = baseGetUrl p) ∧
    (s.redirectUrls = false → get_url s signer p = signer p) ∧
    ∀ st : Settings, st.expireAfter = none → (configure st).expireAfter = 86400 := by
  refine ⟨fun h => ?_, fun h => ?_, fun st h => ?_⟩ <;>
    simp [get_url, configure, initStorage, h]

/-- C5 witness: the branch facts at the concrete redirect-mode storage and
the all-defaults settings. -/
theorem get_url_branches_witness :
    get_url s5r sign5 p0 = baseGetUrl p0 ∧ (configure st5).expireAfter = 86400 :=
  ⟨(get_url_branches s5r sign5 p0).1 rfl,
   (get_url_branches s5r sign5 p0).2.2 st5 rfl⟩

/-- C6: resolving the storage key stores the key in the metadata bag of the
package, and resolving again on the same storage instance returns exactly
the stored key with the package unchanged. -/
theorem get_path_memoized_idempotent (s : ObjectStoreStorage) (p : Package) :
    (get_path s p).2.data.lookup "path" = some (get_path s p).1 ∧
    get_path s (get_path s p).2 = ((get_path s p).1, (get_path s p).2) :=
  ⟨get_path_memo_lookup s p,
   get_path_hit s (get_path s p).2 (get_path s p).1 (get_path_memo_lookup s p)⟩

/-- C7 counterexample: two fresh packages sharing filename and origin but
with different project names resolve to different keys under the same
configuration — the key is not independent of the project name. -/
theorem storage_key_depends_on_name_counterexample :
    p7a.filename = p7b.filename ∧ p7a.origin = p7b.origin ∧
    p7a.data.lookup "path" = none ∧ p7b.data.lookup "path" = none ∧
    (get_path s7 p7a).1 ≠ (get_path s7 p7b).1 := by decide

/-- C7 (amended): the computed key is a pure function of the project name,
the filename, the origin and the configuration: two fresh packages agreeing
on name, filename and origin resolve to identical keys under the same
configuration, whatever their other state. -/
theorem storage_key_pure (s : ObjectStoreStorage) (p q : Package)
    (hn : p.name = q.name) (hf : p.filename = q.filename)
    (ho : p.origin = q.origin)
    (hp : p.data.lookup "path" = none) (hq : q.data.lookup "path" = none) :
    (get_path s p).1 = (get_path s q).1 := by
  rw [get_path_fresh s p hp, get_path_fresh s q hq]
  simp only [calculate_path, areaPfx, hn, hf, ho]

/-- C7 witness: `p7a` and `p7c` agree on name, filename and origin but
differ in version, summary, requires-python and unrelated metadata, and
resolve to the same key. -/
theorem storage_key_pure_witness :
    p7a.name = p7c.name ∧ p7a.filename = p7c.filename ∧
    p7a.origin = p7c.origin ∧
    p7a.data.lookup "path" = none ∧ p7c.data.lookup "path" = none ∧
    (get_path s7 p7a).1 = (get_path s7 p7c).1 :=
  ⟨rfl, rfl, rfl, rfl, by decide,
   storage_key_pure s7 p7a p7c rfl rfl rfl rfl (by decide)⟩

/-- C8: when the constructor receives an upload area identical to the
bucket area it resets the upload area to `None`, and key resolution then
chooses the bucket area for every origin. -/
theorem upload_area_collapse (e : Nat) (b : String) (h r u : Bool) :
    (initStorage e b b h r u).uploadPfx = none ∧
    ∀ origin : String, areaPfx (initStorage e b b h r u) origin = b := by
  refine ⟨by simp [initStorage], fun origin => ?_⟩
  simp [areaPfx, initStorage, optTruthy]

/-- C9: the proxied-stream path opens the object through its generated URL
and the handle count always returns to its initial value — the handle is
closed on the read-error path, the consumer-error path and the normal
path alike — while a successful read hands exactly the read bytes to the
consumer. -/
theorem openStream_closes_handle {α : Type} (signer : Package → String)
    (urlopenF : String → Except String Handle)
    (consumer : List Nat → Except String α) (p : Package) (n : Nat) :
    (openStream signer urlopenF consumer p n).2 = n ∧
    ∀ h bs, urlopenF (signer p) = .ok h → h.readRes = .ok bs →
      (openStream signer urlopenF consumer p n).1 = consumer bs := by
  constructor
  · cases hu : urlopenF (signer p) with
    | error e => simp [openStream, hu]
    | ok hdl => simp [openStream, hu, tryFinally]
  · intro h bs hu hr
    simp [openStream, hu, tryFinally, hr]

/-- C9 witness: a handle reading `[1, 2]` is opened at count 3, the count
returns to 3 and the consumer receives the bytes. -/
theorem openStream_closes_handle_witness :
    (openStream sign5 uo9 cons9 p0 3).2 = 3 ∧
    (openStream sign5 uo9 cons9 p0 3).1 = cons9 [1, 2] :=
  ⟨(openStream_closes_handle sign5 uo9 cons9 p0 3).1,
   (openStream_closes_handle sign5 uo9 cons9 p0 3).2 { readRes := .ok [1, 2] }
     [1, 2] rfl rfl⟩

/-- C10: once a key is memoized by a `get_path` call on one storage
instance, a later call through any other instance — whatever its area
prefixes or hashing setting — returns the memoized key and leaves the
package unchanged. -/
theorem get_path_memo_overrides_config (s1 s2 : ObjectStoreStorage)
    (p : Package) :
    get_path s2 (get_path s1 p).2 = ((get_path s1 p).1, (get_path s1 p).2) :=
  get_path_hit s2 (get_path s1 p).2 (get_path s1 p).1 (get_path_memo_lookup s1 p)

end PypiCloud
